import Mathlib

/-!
Verification of the `@asleepace/try` error-handling library (shallow embedding).

The embedding models the code of `src/index.ts` (classes `Res` and `Try`),
`src/result.ts` (the older `Res` class whose `unwrap` wraps the error message),
and the experimental single-file variant (`Result` class that branches on
`instanceof Error` in its constructor, with its `ok` getter written as
`this[1] !== undefined`).

JavaScript values are modelled by the inductive type `Value`; promises by the
mutually inductive `Deferred`, whose settling (`settle`) follows the promise
resolution procedure: resolving with a promise adopts that promise's eventual
state, so a fulfilled value is never itself a promise.  A zero-argument thunk
is modelled by its invocation behaviour `Outcome`: it either returns a value
(`ret v`, where `v` may be a promise) or throws (`thr c`).  `Try.catch`
returns either a synchronous `Res` (`CatchOut.sync`) or a still-pending
promise of a `Res` (`CatchOut.pending r`, meaning: the caller receives an
unsettled future immediately, which later settles to `r`).
-/

namespace TryLib

/-- ErrVal models a JavaScript `Error` instance: `name` is the concrete
kind (`"Error"`, `"TypeError"`, a custom subclass name, ...) and `message`
its message.  Structural equality of `ErrVal` stands in for reference
identity of the error object. -/
structure ErrVal where
  name : String
  message : String
deriving DecidableEq

mutual
/-- A JavaScript value: primitives, `Error` instances and promises. -/
inductive Value where
  | vnull : Value
  | vundefined : Value
  | vbool : Bool → Value
  | vnum : Int → Value
  | vstr : String → Value
  | verror : ErrVal → Value
  | vpromise : Deferred → Value

/-- A promise, described by how it was settled: `dresolve v` is a promise
resolved with `v` (if `v` is itself a promise, its state is adopted),
`dreject c` is a promise rejected with cause `c` (no adoption on reject). -/
inductive Deferred where
  | dresolve : Value → Deferred
  | dreject : Value → Deferred
end

/-- `output instanceof Promise` check of `Try.catch`. -/
def Value.isPromise : Value → Bool
  | .vpromise _ => true
  | _ => false

/-- Comparison against JavaScript `undefined`. -/
def Value.isUndef : Value → Bool
  | .vundefined => true
  | _ => false

/-- `exception instanceof Error` (the test used by `Res.toError` /
`Res.isError` / the experimental constructor). -/
def Value.isErrorVal : Value → Bool
  | .verror _ => true
  | _ => false

/-- A value is nullish (`null` or `undefined`): the test performed by the
`??` null-coalescing operator in `unwrapOr`. -/
def Value.isNullish : Value → Bool
  | .vnull => true
  | .vundefined => true
  | _ => false

/-- JavaScript `String(x)` coercion, restricted to the modelled values. -/
def jsToString : Value → String
  | .vnull => "null"
  | .vundefined => "undefined"
  | .vbool true => "true"
  | .vbool false => "false"
  | .vnum n => toString n
  | .vstr s => s
  | .verror e => e.name ++ ": " ++ e.message
  | .vpromise _ => "[object Promise]"

/-- The eventual state of a settled promise: fulfilled with a value, or
rejected with a cause. -/
inductive Settled where
  | sfulfilled : Value → Settled
  | srejected : Value → Settled

/-- Settling a promise, following the promise resolution procedure:
resolving with a promise adopts the inner promise's eventual state
(flattening arbitrarily nested promises); rejecting does not adopt. -/
def settle : Deferred → Settled
  | .dresolve (.vpromise d) => settle d
  | .dresolve v => .sfulfilled v
  | .dreject c => .srejected c

/-- The `Res` class of `src/index.ts` (also the `Res` class of
`src/result.ts`, whose storage and getters are identical): a 2-slot array
where `this[0]` holds the value (slot absent ↔ the JS value `undefined`,
kept inside `Value`) and `this[1]` holds the error or is `undefined`
(modelled as `Option ErrVal`, `none` ↔ `undefined`). -/
structure ResV where
  slot0 : Value
  slot1 : Option ErrVal

namespace Res

/-- `Res.toError`: `exception instanceof Error ? exception : new Error(String(exception))`. -/
def toError (exception : Value) : ErrVal :=
  match exception with
  | .verror e => e
  | _ => ⟨"Error", jsToString exception⟩

/-- `Res.ok(value)`: `Res.from([value, undefined])`. -/
def ok (value : Value) : ResV := ⟨value, none⟩

/-- `Res.err(exception)`: `Res.from([undefined, Res.toError(exception)])`. -/
def err (exception : Value) : ResV := ⟨.vundefined, some (toError exception)⟩

end Res

/-- Getter `value`: `return this[0]`. -/
def ResV.value (r : ResV) : Value := r.slot0

/-- Getter `error`: `return this[1]`. -/
def ResV.error (r : ResV) : Option ErrVal := r.slot1

/-- Getter `ok`: `return this.error === undefined`. -/
def ResV.ok (r : ResV) : Bool := r.error.isNone

/-- `isOk()`: `return this.error === undefined`. -/
def ResV.isOk (r : ResV) : Bool := r.error.isNone

/-- `isErr()`: `return this.error !== undefined`. -/
def ResV.isErr (r : ResV) : Bool := r.error.isSome

/-- `unwrap()` of `src/index.ts`: `if (this.isOk()) return this.value;
throw this.error` — throwing is modelled by `Except.error` carrying the
thrown error. -/
def ResV.unwrap (r : ResV) : Except ErrVal Value :=
  match r.slot1 with
  | none => .ok r.value
  | some e => .error e

/-- `unwrapOr(fallback)`: `return this.value ?? fallback` — the branch is
taken by the null-coalescing operator, i.e. on nullish-ness of the payload. -/
def ResV.unwrapOr (r : ResV) (fallback : Value) : Value :=
  if (r.value).isNullish then fallback else r.value

/-- A thunk, modelled by its invocation behaviour: `fn()` either returns a
value (possibly a promise) or throws. -/
inductive Outcome where
  | ret : Value → Outcome
  | thr : Value → Outcome

/-- What `Try.catch` hands back to the caller: either a `Res` returned
synchronously, or — without blocking — a still-pending promise that later
settles to the given `Res`. -/
inductive CatchOut where
  | sync : ResV → CatchOut
  | pending : ResV → CatchOut

/-- The continuation `output.then((value) => Res.ok(value)).catch((error) =>
Res.err(error))` applied to the eventual state of the promise. -/
def settledToRes : Settled → ResV
  | .sfulfilled v => Res.ok v
  | .srejected c => Res.err c

/-- `Try.catch(fn)` of `src/index.ts`:
`try { const output = fn(); if (output instanceof Promise) return
output.then(ok).catch(err); else return Res.ok(output) } catch (e) { return
Res.err(e) }`. -/
def tryCatch : Outcome → CatchOut
  | .ret (.vpromise d) => .pending (settledToRes (settle d))
  | .ret v => .sync (Res.ok v)
  | .thr c => .sync (Res.err c)

/-- `public or = Try.catch` of `src/index.ts` (line 169) and
`src/result.ts` (line 35): the instance field `or` is the static
`Try.catch` itself and never reads the receiver. -/
def ResV.or (_r : ResV) (nextThunk : Outcome) : CatchOut :=
  tryCatch nextThunk

/-- `Try.init(ctor, ...args)`: `return Try.catch(() => new ctor(...args))`.
A constructor is modelled by the invocation behaviour of `new ctor(...args)`
as a function of the argument list. -/
def tryInit (ctor : List Value → Outcome) (args : List Value) : CatchOut :=
  tryCatch (ctor args)

namespace ResultTs

/-- `unwrap()` of `src/result.ts`: `if (!this.ok) throw new Error(
"Failed to unwrap result with error: " + this.error!.message); return
this.value as T`. -/
def unwrap (r : ResV) : Except ErrVal Value :=
  match r.slot1 with
  | none => .ok r.value
  | some e => .error ⟨"Error", "Failed to unwrap result with error: " ++ e.message⟩

end ResultTs

/-- The experimental single-file `Result<T>` class: a 2-slot array whose
slots both hold raw JS values (`undefined` marks the empty slot). -/
structure Result4 where
  slot0 : Value
  slot1 : Value

namespace Result4

/-- The experimental `Result` constructor: `if (result instanceof Error)
{ this[0] = undefined; this[1] = result } else { this[0] = result;
this[1] = undefined }`. -/
def ofValue (result : Value) : Result4 :=
  if result.isErrorVal then ⟨.vundefined, result⟩ else ⟨result, .vundefined⟩

/-- The experimental getter `ok`: `return (this[1] !== undefined)` — as
written in the source, including its inversion relative to `isOk`. -/
def ok (r : Result4) : Bool := !(r.slot1.isUndef)

/-- The experimental `isOk()`: `return this[1] === undefined`. -/
def isOk (r : Result4) : Bool := r.slot1.isUndef

/-- The experimental `isErr()`: `return this[1] !== undefined`. -/
def isErr (r : Result4) : Bool := !(r.slot1.isUndef)

end Result4

/-- The experimental `Try.catch(fn)`: `try { const value = fn(); return new
Result(value) } catch (e) { return new Result(e instanceof Error ? e : new
Error(String(e))) }` — synchronous only; note the constructor, not the
catch, decides which slot is filled. -/
def tryCatch4 : Outcome → Result4
  | .ret v => Result4.ofValue v
  | .thr c => Result4.ofValue (.verror (Res.toError c))

/-- Presence of slot 0, in the sense the code itself uses for slots
(`!== undefined`): the value slot is present when it does not hold the
absence marker `undefined`. -/
def present0 (r : ResV) : Bool := !(r.slot0.isUndef)

/-- Presence of slot 1 (`!== undefined`): the error slot is present when it
holds an error. -/
def present1 (r : ResV) : Bool := r.slot1.isSome

/-- The invariant claimed by the spec: `present(slot0) XOR present(slot1)`. -/
def xorInvariant (r : ResV) : Bool := Bool.xor (present0 r) (present1 r)

/-- The `Res` instances reachable through the public factory paths
`Res.ok` and `Res.err` (and hence through `Try.catch`, which only calls
these two). -/
inductive FromFactory : ResV → Prop where
  | ok (v : Value) : FromFactory (Res.ok v)
  | err (c : Value) : FromFactory (Res.err c)

/-- Helper: the promise resolution procedure never lets a promise fulfil
with a value that is itself a promise — adoption flattens nested promises. -/
theorem settle_fulfilled_not_promise (d : Deferred) : ∀ v : Value,
    settle d = .sfulfilled v → v.isPromise = false := by
  induction d using settle.induct with
  | case1 d ih =>
      intro v h
      exact ih v (by simpa [settle] using h)
  | case2 w hnp =>
      intro v h
      simp [settle] at h
      subst h
      cases w <;> simp [Value.isPromise] at hnp ⊢
  | case3 c =>
      intro v h
      simp [settle] at h

/-- Claim C1 (code evaluated at the failing input): the `or` field is
`Try.catch` itself and ignores its receiver, so even on a success Result it
re-invokes the alternative thunk and returns that thunk's Result — the
original success `Ok(1)` is discarded (first two conjuncts), so
short-circuiting fails; the spec's chain example
`run(throw e1).or(throw e2).or(() => 42).unwrapOr(-1) = 42` still holds
(remaining conjuncts) because its success comes last. -/
theorem c1_or_ignores_success_receiver :
    ResV.or (Res.ok (.vnum 1)) (.ret (.vnum 2)) = .sync (Res.ok (.vnum 2))
    ∧ ResV.or (Res.ok (.vnum 1)) (.thr (.verror ⟨"Error", "e2"⟩))
        = .sync (Res.err (.verror ⟨"Error", "e2"⟩))
    ∧ tryCatch (.thr (.verror ⟨"Error", "e1"⟩))
        = .sync (Res.err (.verror ⟨"Error", "e1"⟩))
    ∧ ResV.or (Res.err (.verror ⟨"Error", "e1"⟩)) (.thr (.verror ⟨"Error", "e2"⟩))
        = .sync (Res.err (.verror ⟨"Error", "e2"⟩))
    ∧ ResV.or (Res.err (.verror ⟨"Error", "e2"⟩)) (.ret (.vnum 42))
        = .sync (Res.ok (.vnum 42))
    ∧ (Res.ok (.vnum 42)).unwrapOr (.vnum (-1)) = .vnum 42 :=
  ⟨rfl, rfl, rfl, rfl, rfl, rfl⟩

/-- Claim C2 (code evaluated at the failing input): `unwrapOr` is
`this.value ?? fallback`, so a success Result whose stored payload is
`null` (or `undefined`) returns the fallback `99` instead of the payload —
the branch is decided by payload nullish-ness, not by the success flag.
Falsy-but-non-nullish payloads such as `0` do return the payload, and a
failure Result returns the fallback. -/
theorem c2_unwrapOr_nullish_falls_through :
    (Res.ok .vnull).ok = true
    ∧ (Res.ok .vnull).slot0 = .vnull
    ∧ (Res.ok .vnull).unwrapOr (.vnum 99) = .vnum 99
    ∧ (Res.ok .vundefined).unwrapOr (.vnum 99) = .vnum 99
    ∧ (Res.ok (.vnum 0)).unwrapOr (.vnum 99) = .vnum 0
    ∧ (Res.err (.vstr "fail")).unwrapOr (.vnum 99) = .vnum 99 :=
  ⟨rfl, rfl, rfl, rfl, rfl, rfl⟩

/-- Claim C3 counterexample: `Res.ok(undefined)` — a legal success payload
per the spec — leaves both slots equal to `undefined`, so
`present(slot0) XOR present(slot1)` is false: both slots are absent. -/
theorem c3_xor_counterexample :
    xorInvariant (Res.ok .vundefined) = false
    ∧ present0 (Res.ok .vundefined) = false
    ∧ present1 (Res.ok .vundefined) = false :=
  ⟨rfl, rfl, rfl⟩

/-- Claim C3 as amended: for every Result built by a factory path,
both-present never occurs, and the XOR invariant holds except in the one
case of a success Result whose payload is `undefined`, where both slots are
absent (the success flag is still correct there, being derived from slot 1
alone). -/
theorem c3_xor_amended (r : ResV) (h : FromFactory r) :
    (present0 r && present1 r) = false
    ∧ (xorInvariant r = true ∨ (r.slot0 = .vundefined ∧ r.slot1 = none)) := by
  cases h with
  | ok v =>
      cases v <;>
        simp [present0, present1, xorInvariant, Res.ok, Value.isUndef]
  | err c =>
      simp [present0, present1, xorInvariant, Res.err, Value.isUndef]

/-- Witness for the amended C3 at the concrete inputs `Res.ok(5)`. -/
theorem c3_xor_amended_witness :
    (present0 (Res.ok (.vnum 5)) && present1 (Res.ok (.vnum 5))) = false
    ∧ (xorInvariant (Res.ok (.vnum 5)) = true
        ∨ ((Res.ok (.vnum 5)).slot0 = .vundefined
            ∧ (Res.ok (.vnum 5)).slot1 = none)) :=
  c3_xor_amended (Res.ok (.vnum 5)) (FromFactory.ok (.vnum 5))

/-- Claim C4: for every thrown cause `c`, `run(() => { throw c })` returns a
failure Result synchronously (never a pending promise, and the total
function `tryCatch` never re-raises); the stored error is `toError c`,
which is the cause itself when the cause is an `Error` instance (kind and
identity preserved) and otherwise a fresh generic `Error` whose message is
the string coercion of the cause. -/
theorem c4_throw_sync (c : Value) :
    tryCatch (.thr c) = .sync (Res.err c)
    ∧ (Res.err c).isErr = true
    ∧ (Res.err c).slot1 = some (Res.toError c)
    ∧ (∀ e : ErrVal, c = .verror e → Res.toError c = e)
    ∧ (c.isErrorVal = false →
        Res.toError c = ⟨"Error", jsToString c⟩) := by
  refine ⟨rfl, rfl, rfl, ?_, ?_⟩
  · intro e h
    subst h
    rfl
  · intro h
    cases c <;> first | rfl | simp [Value.isErrorVal] at h

/-- Witness for C4 at the concrete causes `404` (a thrown number: wrapped
into a generic Error whose message is `"404"`) and a thrown `TypeError`
(stored unchanged, kind preserved). -/
theorem c4_throw_sync_witness :
    tryCatch (.thr (.vnum 404)) = .sync (Res.err (.vnum 404))
    ∧ Res.toError (.vnum 404) = ⟨"Error", "404"⟩
    ∧ Res.toError (.verror ⟨"TypeError", "type error"⟩)
        = ⟨"TypeError", "type error"⟩ := by
  refine ⟨(c4_throw_sync (.vnum 404)).1, ?_, ?_⟩
  · exact ((c4_throw_sync (.vnum 404)).2.2.2.2 rfl).trans rfl
  · exact (c4_throw_sync (.verror ⟨"TypeError", "type error"⟩)).2.2.2.1
      ⟨"TypeError", "type error"⟩ rfl

/-- Claim C5: a thunk returning a promise makes `run` return a still-pending
promise of Result immediately (the `pending` constructor — no blocking);
on fulfilment the Result is a success whose payload is the fully flattened
fulfilled value, which is never itself a promise; on rejection the Result
is a failure whose stored error is the normalized rejection cause. -/
theorem c5_deferred_thunk (d : Deferred) :
    tryCatch (.ret (.vpromise d)) = .pending (settledToRes (settle d))
    ∧ (∀ v : Value, settle d = .sfulfilled v →
        settledToRes (settle d) = Res.ok v
        ∧ v.isPromise = false
        ∧ (Res.ok v).ok = true
        ∧ (Res.ok v).slot0 = v)
    ∧ (∀ c : Value, settle d = .srejected c →
        settledToRes (settle d) = Res.err c
        ∧ (Res.err c).isErr = true
        ∧ (Res.err c).slot1 = some (Res.toError c)) := by
  refine ⟨rfl, ?_, ?_⟩
  · intro v h
    rw [h]
    exact ⟨rfl, settle_fulfilled_not_promise d v h, rfl, rfl⟩
  · intro c h
    rw [h]
    exact ⟨rfl, rfl, rfl⟩

/-- Witness for C5: `run(async () => Promise.reject("boom"))` settles to a
failure Result whose error message is `"boom"`, and a nested promise
resolving to a promise of `456` settles to a success Result with payload
`456` (fully flattened). -/
theorem c5_deferred_thunk_witness :
    tryCatch (.ret (.vpromise (.dreject (.vstr "boom"))))
      = .pending (Res.err (.vstr "boom"))
    ∧ (Res.err (.vstr "boom")).slot1 = some ⟨"Error", "boom"⟩
    ∧ tryCatch (.ret (.vpromise (.dresolve (.vpromise (.dresolve (.vnum 456))))))
      = .pending (Res.ok (.vnum 456)) := by
  have h1 := c5_deferred_thunk (.dreject (.vstr "boom"))
  have h2 := c5_deferred_thunk (.dresolve (.vpromise (.dresolve (.vnum 456))))
  refine ⟨?_, ?_, ?_⟩
  · exact h1.1.trans (by rw [(h1.2.2 (.vstr "boom") rfl).1])
  · exact ((h1.2.2 (.vstr "boom") rfl).2.2).trans rfl
  · exact h2.1.trans (by rw [(h2.2.1 (.vnum 456) rfl).1])

/-- Claim C6: for every non-promise value `v` (including `null`,
`undefined`, `0`, `false` and `""`), `run(() => v)` returns synchronously a
success Result whose payload equals `v` and whose error is absent. -/
theorem c6_sync_value (v : Value) (h : v.isPromise = false) :
    tryCatch (.ret v) = .sync (Res.ok v)
    ∧ (Res.ok v).value = v
    ∧ (Res.ok v).error = none
    ∧ (Res.ok v).ok = true := by
  refine ⟨?_, rfl, rfl, rfl⟩
  cases v <;> first | rfl | simp [Value.isPromise] at h

/-- Witness for C6 at the edge-case payloads named by the spec. -/
theorem c6_sync_value_witness :
    tryCatch (.ret .vnull) = .sync (Res.ok .vnull)
    ∧ tryCatch (.ret .vundefined) = .sync (Res.ok .vundefined)
    ∧ tryCatch (.ret (.vnum 0)) = .sync (Res.ok (.vnum 0))
    ∧ tryCatch (.ret (.vbool false)) = .sync (Res.ok (.vbool false))
    ∧ tryCatch (.ret (.vstr "")) = .sync (Res.ok (.vstr "")) :=
  ⟨(c6_sync_value .vnull rfl).1, (c6_sync_value .vundefined rfl).1,
   (c6_sync_value (.vnum 0) rfl).1, (c6_sync_value (.vbool false) rfl).1,
   (c6_sync_value (.vstr "") rfl).1⟩

/-- Claim C7 counterexample: in the experimental single-file variant, a
thunk that returns (not throws) an `Error` instance yields a Result whose
error slot holds that value and whose value slot is empty — `isErr()` is
true, the opposite of the claimed success Result carrying the error as
payload. -/
theorem c7_returned_error_counterexample :
    (tryCatch4 (.ret (.verror ⟨"Error", "errorAsValue"⟩))).isErr = true
    ∧ (tryCatch4 (.ret (.verror ⟨"Error", "errorAsValue"⟩))).slot0 = .vundefined
    ∧ (tryCatch4 (.ret (.verror ⟨"Error", "errorAsValue"⟩))).slot1
        = .verror ⟨"Error", "errorAsValue"⟩ :=
  ⟨rfl, rfl, rfl⟩

/-- Claim C7 as amended: in the main wrapper (`src/index.ts`), a returned
`Error` instance is a successful payload — the failure channel is reserved
for thrown/rejected values — while the experimental variant's constructor
instead routes any `instanceof Error` value, even a returned one, into the
error slot. -/
theorem c7_returned_error_amended (e : ErrVal) :
    tryCatch (.ret (.verror e)) = .sync (Res.ok (.verror e))
    ∧ (Res.ok (.verror e)).ok = true
    ∧ (Res.ok (.verror e)).slot0 = .verror e
    ∧ (Res.ok (.verror e)).slot1 = none
    ∧ (tryCatch4 (.ret (.verror e))).slot0 = .vundefined
    ∧ (tryCatch4 (.ret (.verror e))).slot1 = .verror e :=
  ⟨rfl, rfl, rfl, rfl, rfl, rfl⟩

/-- Claim C8 (code evaluated at the failing input): in the experimental
variant, the success Result produced by `Try.catch(() => 123)` has an empty
error slot, yet its derived `ok` getter — written `this[1] !== undefined` —
returns `false`, disagreeing with its own `isOk()`; so `ok` is not "true
iff slot 1 absent" there.  In the main `Res` class (last conjunct) the flag
and `isOk`/`isErr` do satisfy the claim for every instance. -/
theorem c8_ok_flag_inverted_eval :
    (tryCatch4 (.ret (.vnum 123))).slot1 = .vundefined
    ∧ (tryCatch4 (.ret (.vnum 123))).ok = false
    ∧ (tryCatch4 (.ret (.vnum 123))).isOk = true
    ∧ (tryCatch4 (.ret (.vnum 123))).isErr = false
    ∧ (∀ r : ResV, r.ok = r.slot1.isNone
        ∧ r.isOk = !r.isErr
        ∧ r.ok = r.isOk) := by
  refine ⟨rfl, rfl, rfl, rfl, ?_⟩
  rintro ⟨s0, s1⟩
  cases s1 <;> exact ⟨rfl, rfl, rfl⟩

/-- Claim C9: `unwrap()` returns the stored payload without raising on a
success Result and raises on a failure Result; the raised value is the
stored error itself in `src/index.ts` and a fresh Error wrapping the stored
error's message in `src/result.ts`. -/
theorem c9_unwrap_behaviour (r : ResV) :
    (r.slot1 = none →
      r.unwrap = .ok r.slot0 ∧ ResultTs.unwrap r = .ok r.slot0)
    ∧ (∀ e : ErrVal, r.slot1 = some e →
      r.unwrap = .error e
      ∧ ResultTs.unwrap r
          = .error ⟨"Error", "Failed to unwrap result with error: " ++ e.message⟩) := by
  constructor
  · intro h
    unfold ResV.unwrap ResultTs.unwrap
    rw [h]
    exact ⟨rfl, rfl⟩
  · intro e h
    unfold ResV.unwrap ResultTs.unwrap
    rw [h]
    exact ⟨rfl, rfl⟩

/-- Witness for C9 at a concrete success (payload `true`) and a concrete
failure (thrown string `"unwrap"`). -/
theorem c9_unwrap_behaviour_witness :
    (Res.ok (.vbool true)).unwrap = .ok (.vbool true)
    ∧ (Res.err (.vstr "unwrap")).unwrap = .error ⟨"Error", "unwrap"⟩
    ∧ ResultTs.unwrap (Res.err (.vstr "unwrap"))
        = .error ⟨"Error", "Failed to unwrap result with error: unwrap"⟩ := by
  have h1 := (c9_unwrap_behaviour (Res.ok (.vbool true))).1 rfl
  have h2 := (c9_unwrap_behaviour (Res.err (.vstr "unwrap"))).2
    ⟨"Error", "unwrap"⟩ rfl
  exact ⟨h1.1, h2.1, h2.2.trans (by rfl)⟩

/-- Claim C10: `Try.init(ctor, ...args)` returns exactly
`Try.catch(() => new ctor(...args))`; when construction completes with an
ordinary (non-promise) instance the Result is a synchronous success holding
that instance, and when the constructor throws it is a synchronous failure
holding the normalized cause. -/
theorem c10_init_delegates (ctor : List Value → Outcome) (args : List Value) :
    tryInit ctor args = tryCatch (ctor args)
    ∧ (∀ v : Value, ctor args = .ret v → v.isPromise = false →
        tryInit ctor args = .sync (Res.ok v))
    ∧ (∀ c : Value, ctor args = .thr c →
        tryInit ctor args = .sync (Res.err c)) := by
  refine ⟨rfl, ?_, ?_⟩
  · intro v h hp
    unfold tryInit
    rw [h]
    cases v <;> first | rfl | simp [Value.isPromise] at hp
  · intro c h
    unfold tryInit
    rw [h]
    rfl

/-- Witness for C10 with a concrete succeeding constructor (payload is the
argument count, `1`) and a concrete throwing constructor. -/
theorem c10_init_delegates_witness :
    tryInit (fun args => .ret (.vnum args.length)) [.vnull]
      = .sync (Res.ok (.vnum 1))
    ∧ tryInit (fun _ => .thr (.vstr "ctor boom")) []
      = .sync (Res.err (.vstr "ctor boom")) :=
  ⟨(c10_init_delegates (fun args => .ret (.vnum args.length)) [.vnull]).2.1
      (.vnum 1) rfl rfl,
   (c10_init_delegates (fun _ => .thr (.vstr "ctor boom")) []).2.2
      (.vstr "ctor boom") rfl⟩

end TryLib
